import Mathlib

/-!
Shallow embedding of `alpha/template/composite/composite.go` from the
operator-registry repository: the composite-template render engine.

Go maps over string keys are embedded as association lists with
first-match lookup and replace-or-append insertion; Go `error` results
become an explicit error datatype whose constructors correspond one to
one to the `fmt.Errorf` sites of the source, carrying exactly the data
the source threads into the format string.  The external collaborators
(YAML/JSON decoding, the concrete builder implementations, the image
registry, `os.Open` / `url.ParseRequestURI` / `filepath.IsAbs`) are
modelled as abstract data supplied to the embedded functions, as the
source itself treats them as opaque capabilities.

To reason about which builders `Render` invokes and in which order, the
embedded `Render` additionally returns the list of `Build` / `Validate`
invocations it performs, in order; the error component follows the
source control flow line by line.
-/

set_option autoImplicit false

namespace Composite

/-- Association-list lookup with first-match semantics; embeds a Go map
read `m[k]` (the maps built here never hold duplicate keys, so
first-match agrees with the Go map). -/
def mapLookup {α : Type} : List (String × α) → String → Option α
  | [], _ => none
  | (k', v) :: rest, k => if k' == k then some v else mapLookup rest k

/-- Embeds the Go comma-ok membership test `_, ok := m[k]`. -/
def mapContains {α : Type} (m : List (String × α)) (k : String) : Bool :=
  (mapLookup m k).isSome

/-- Association-list insertion, replace-or-append; embeds a Go map write
`m[k] = v`. -/
def mapInsert {α : Type} : List (String × α) → String → α → List (String × α)
  | [], k, v => [(k, v)]
  | (k', v') :: rest, k, v =>
    if k' == k then (k, v) :: rest else (k', v') :: mapInsert rest k v

/-- The keys of an embedded Go map; embeds `for k := range m` collecting
the keys (the Go iteration order is unspecified, the claims about key
lists only concern which keys appear). -/
def mapKeys {α : Type} (m : List (String × α)) : List String :=
  m.map Prod.fst

/-- Opaque image-registry capability (`image.Registry`): the source
passes it through to builders unmodified and never inspects it. -/
structure ImageRegistry where
  tag : Nat

/-- The `TemplateDefinition` carried in a component's
`strategy.template`: the source reads only its `Schema` discriminator
and hands the whole value to the builder; the builder-specific fields
are opaque payload. -/
structure TemplateDefinition where
  Schema : String
  config : String
deriving DecidableEq

/-- The `BuilderConfig` as constructed at the `builderForSchema` call site:
only the shared output type. -/
structure BuilderConfig where
  OutputType : String
deriving DecidableEq

/-- External builder capability: `Build` and `Validate`, each either
succeeding or returning an error message (Go `error`).  The concrete
behaviour is outside this core, so it is an arbitrary function of the
arguments the source passes. -/
structure Builder where
  build : ImageRegistry → String → TemplateDefinition → Option String
  validate : String → Option String

/-- Type `BuilderMap`: schema identifier to builder, scoped to one catalog. -/
def BuilderMap : Type := List (String × Builder)

/-- Type `CatalogBuilderMap`: catalog name to its `BuilderMap`. -/
def CatalogBuilderMap : Type := List (String × BuilderMap)

/-- The `destination` block of a catalog entry (the `baseImage` check in
the source is commented out, so only `workingDir` is relevant). -/
structure CatalogDestination where
  WorkingDir : String
deriving DecidableEq

/-- One catalog entry of the catalog configuration document. -/
structure Catalog where
  Name : String
  Destination : CatalogDestination
  Builders : List String
deriving DecidableEq

/-- The decoded catalog configuration document. -/
structure CatalogConfig where
  Schema : String
  Catalogs : List Catalog
deriving DecidableEq

/-- The `destination` block of a component entry. -/
structure ComponentDestination where
  Path : String
deriving DecidableEq

/-- The `strategy` block of a component entry. -/
structure BuildStrategy where
  Template : TemplateDefinition
deriving DecidableEq

/-- One component entry of the composite contribution document. -/
structure Component where
  Name : String
  Destination : ComponentDestination
  Strategy : BuildStrategy
deriving DecidableEq

/-- The decoded composite contribution document. -/
structure CompositeConfig where
  Schema : String
  Components : List Component
deriving DecidableEq

/-- Expected `schema` constant for the catalog configuration document
(spec section 3 gives the value; the constant itself is declared outside
this source file). -/
def CatalogSchema : String := "olm.composite.catalogs"

/-- Modelled from the spec: the expected `schema` constant for the
composite document is declared outside this source file; the spec only
says it is a fixed constant, so any fixed string faithfully models it. -/
def CompositeSchema : String := "olm.composite"

/-- Modelled from the spec: the basic builder schema identifier (the
spec's example uses this exact string). -/
def BasicBuilderSchema : String := "olm.builder.basic"

/-- Modelled from the spec: the semver builder schema identifier. -/
def SemverBuilderSchema : String := "olm.builder.semver"

/-- Modelled from the spec: the raw builder schema identifier. -/
def RawBuilderSchema : String := "olm.builder.raw"

/-- Modelled from the spec: the custom builder schema identifier. -/
def CustomBuilderSchema : String := "olm.builder.custom"

/-- Modelled from the spec: the concrete basic builder lives outside
this core (spec section 1 lists builder implementations as external
collaborators); no claim depends on its behaviour, only on its
construction, so it is modelled as a builder whose operations succeed. -/
def NewBasicBuilder (_ : BuilderConfig) : Builder :=
  { build := fun _ _ _ => none, validate := fun _ => none }

/-- Modelled from the spec: external semver builder, see
`NewBasicBuilder`. -/
def NewSemverBuilder (_ : BuilderConfig) : Builder :=
  { build := fun _ _ _ => none, validate := fun _ => none }

/-- Modelled from the spec: external raw builder, see
`NewBasicBuilder`. -/
def NewRawBuilder (_ : BuilderConfig) : Builder :=
  { build := fun _ _ _ => none, validate := fun _ => none }

/-- Modelled from the spec: external custom builder, see
`NewBasicBuilder`. -/
def NewCustomBuilder (_ : BuilderConfig) : Builder :=
  { build := fun _ _ _ => none, validate := fun _ => none }

/-- Outcome of reading and decoding one configuration stream: the
low-level YAML/JSON decoding is an external library, so a document
source is modelled by the result it produces — a decode failure, an
unmarshal failure, or the decoded document. -/
inductive DocSource (α : Type) where
  | decodeFail (msg : String)
  | unmarshalFail (msg : String)
  | doc (a : α)
deriving DecidableEq

/-- Error datatype for the render path: one constructor per
`fmt.Errorf` site of the source, carrying the data that site formats. -/
inductive RenderError where
  | decodingCatalogConfig (msg : String)
  | unmarshallingCatalogConfig (msg : String)
  | catalogUnknownSchema (expected : String)
  | decodingCompositeConfig (msg : String)
  | unmarshallingCompositeConfig (msg : String)
  | compositeUnknownSchema (expected : String)
  | unknownSchema (schema : String)
  | gettingBuilder (schema : String) (catalogName : String) (cause : RenderError)
  | fieldValidationFailed (setupErrors : List (String × List String))
  | buildingComponentFailed (componentName : String) (cause : String)
  | validatingComponentFailed (componentName : String) (cause : String)
  | noBuilderForSchema (componentName : String) (schema : String)
  | componentNotInConfig (componentName : String) (allowedComponents : List String)
deriving DecidableEq

/-- The `Template` value: document sources, the validate flag set by
`WithValidate`, the shared output type, the image registry, and the
registered builder factories. -/
structure Template where
  catalogFile : DocSource CatalogConfig
  contributionFile : DocSource CompositeConfig
  validate : Bool
  outputType : String
  registry : ImageRegistry
  registeredBuilders : List (String × (BuilderConfig → Builder))

/-- Type `TemplateOption`: a functional option mutating the template under
construction. -/
def TemplateOption : Type := Template → Template

/-- Option `WithCatalogFile`. -/
def WithCatalogFile (catalogFile : DocSource CatalogConfig) : TemplateOption :=
  fun t => { t with catalogFile := catalogFile }

/-- Option `WithContributionFile`. -/
def WithContributionFile (contribFile : DocSource CompositeConfig) : TemplateOption :=
  fun t => { t with contributionFile := contribFile }

/-- Option `WithOutputType`. -/
def WithOutputType (outputType : String) : TemplateOption :=
  fun t => { t with outputType := outputType }

/-- Option `WithRegistry`. -/
def WithRegistry (reg : ImageRegistry) : TemplateOption :=
  fun t => { t with registry := reg }

/-- Option `WithValidate`. -/
def WithValidate (validate : Bool) : TemplateOption :=
  fun t => { t with validate := validate }

/-- Constructor `NewTemplate`: the default registered builders, then the options
applied in order.  The zero-valued reader fields of the Go struct are
modelled as sources whose decode fails (decoding a nil reader cannot
yield a document). -/
def NewTemplate (opts : List TemplateOption) : Template :=
  opts.foldl (fun t opt => opt t)
    { catalogFile := .decodeFail "EOF"
      contributionFile := .decodeFail "EOF"
      validate := false
      outputType := ""
      registry := { tag := 0 }
      registeredBuilders :=
        [(BasicBuilderSchema, fun bc => NewBasicBuilder bc),
         (SemverBuilderSchema, fun bc => NewSemverBuilder bc),
         (RawBuilderSchema, fun bc => NewRawBuilder bc),
         (CustomBuilderSchema, fun bc => NewCustomBuilder bc)] }

/-- Function `builderForSchema`: look the schema up among the registered builder
factories and apply the factory, or fail with the unknown-schema
error. -/
def Template.builderForSchema (t : Template) (schema : String)
    (builderCfg : BuilderConfig) : Except RenderError Builder :=
  match mapLookup t.registeredBuilders schema with
  | none => .error (.unknownSchema schema)
  | some f => .ok (f builderCfg)

/-- Function `parseCatalogsSpec`: decode and unmarshal the catalog stream, then
reject the document unless its `schema` field equals `CatalogSchema`. -/
def Template.parseCatalogsSpec (t : Template) : Except RenderError CatalogConfig :=
  match t.catalogFile with
  | .decodeFail msg => .error (.decodingCatalogConfig msg)
  | .unmarshalFail msg => .error (.unmarshallingCatalogConfig msg)
  | .doc catalogConfig =>
    if catalogConfig.Schema ≠ CatalogSchema then
      .error (.catalogUnknownSchema CatalogSchema)
    else
      .ok catalogConfig

/-- Function `parseContributionSpec`: decode and unmarshal the contribution
stream, then reject the document unless its `schema` field equals
`CompositeSchema`. -/
def Template.parseContributionSpec (t : Template) : Except RenderError CompositeConfig :=
  match t.contributionFile with
  | .decodeFail msg => .error (.decodingCompositeConfig msg)
  | .unmarshalFail msg => .error (.unmarshallingCompositeConfig msg)
  | .doc compositeConfig =>
    if compositeConfig.Schema ≠ CompositeSchema then
      .error (.compositeUnknownSchema CompositeSchema)
    else
      .ok compositeConfig

/-- The single field-validation message the source can record for a
catalog. -/
def workingDirErrMsg : String := "destination.workingDir must not be an empty string"

/-- Inner loop of `newCatalogBuilderMap` over one catalog's declared
builder schemas: resolve each via `builderForSchema`, wrapping a
resolution failure with the schema and catalog name, and insert the
builder under its schema. -/
def buildersLoop (t : Template) (outputType : String) (catalogName : String) :
    List String → BuilderMap → Except RenderError BuilderMap
  | [], builderMap => .ok builderMap
  | schema :: rest, builderMap =>
    match t.builderForSchema schema { OutputType := outputType } with
    | .error e => .error (.gettingBuilder schema catalogName e)
    | .ok builder => buildersLoop t outputType catalogName rest (mapInsert builderMap schema builder)

/-- Outer loop of `newCatalogBuilderMap` over the catalogs, threading
the mutable loop state `(setupFailed, setupErrors, catalogBuilderMap)`:
a catalog with empty `workingDir` records its errors and is skipped; a
catalog whose name is already in the map is skipped; otherwise its
builders are resolved (any failure aborts the whole function) and the
resulting builder map is inserted under the catalog name. -/
def catalogsLoop (t : Template) (outputType : String) :
    List Catalog → Bool → List (String × List String) → CatalogBuilderMap →
    Except RenderError (Bool × List (String × List String) × CatalogBuilderMap)
  | [], setupFailed, setupErrors, catalogBuilderMap =>
    .ok (setupFailed, setupErrors, catalogBuilderMap)
  | catalog :: rest, setupFailed, setupErrors, catalogBuilderMap =>
    let errs : List String :=
      if catalog.Destination.WorkingDir == "" then [workingDirErrMsg] else []
    if errs.length > 0 then
      catalogsLoop t outputType rest true (mapInsert setupErrors catalog.Name errs)
        catalogBuilderMap
    else
      if mapContains catalogBuilderMap catalog.Name then
        catalogsLoop t outputType rest setupFailed setupErrors catalogBuilderMap
      else
        match buildersLoop t outputType catalog.Name catalog.Builders [] with
        | .error e => .error e
        | .ok builderMap =>
          catalogsLoop t outputType rest setupFailed setupErrors
            (mapInsert catalogBuilderMap catalog.Name builderMap)

/-- Function `newCatalogBuilderMap`: run the catalog loop from the empty state;
if any catalog failed field validation, fail with the aggregated
validation error carrying every recorded per-catalog error list,
otherwise return the assembled map. -/
def Template.newCatalogBuilderMap (t : Template) (catalogs : List Catalog)
    (outputType : String) : Except RenderError CatalogBuilderMap :=
  match catalogsLoop t outputType catalogs false [] [] with
  | .error e => .error e
  | .ok (setupFailed, setupErrors, catalogBuilderMap) =>
    if setupFailed then
      .error (.fieldValidationFailed setupErrors)
    else
      .ok catalogBuilderMap

/-- One recorded builder invocation, in the order `Render` performs
them. -/
inductive BuilderCall where
  | buildCall (componentName : String) (path : String) (schema : String)
  | validateCall (componentName : String) (path : String)
deriving DecidableEq

/-- The component loop of `Render`: look the component's catalog up in
the map (failing with the unknown-catalog error carrying all map keys),
look its declared schema up in that catalog's builder map (failing with
the unknown-schema error), run `Build` (wrapping a failure with the
component name), and when validation is requested run `Validate`
(likewise wrapping a failure); any failure returns immediately.  The
second result component records the builder invocations performed. -/
def renderComponents (t : Template) (catalogBuilderMap : CatalogBuilderMap)
    (validate : Bool) : List Component → Except RenderError Unit × List BuilderCall
  | [] => (.ok (), [])
  | component :: rest =>
    match mapLookup catalogBuilderMap component.Name with
    | some builderMap =>
      match mapLookup builderMap component.Strategy.Template.Schema with
      | some builder =>
        match builder.build t.registry component.Destination.Path component.Strategy.Template with
        | some err =>
          (.error (.buildingComponentFailed component.Name err),
           [.buildCall component.Name component.Destination.Path component.Strategy.Template.Schema])
        | none =>
          if validate then
            match builder.validate component.Destination.Path with
            | some err =>
              (.error (.validatingComponentFailed component.Name err),
               [.buildCall component.Name component.Destination.Path component.Strategy.Template.Schema,
                .validateCall component.Name component.Destination.Path])
            | none =>
              let r := renderComponents t catalogBuilderMap validate rest
              (r.1,
               .buildCall component.Name component.Destination.Path component.Strategy.Template.Schema ::
                 .validateCall component.Name component.Destination.Path :: r.2)
          else
            let r := renderComponents t catalogBuilderMap validate rest
            (r.1,
             .buildCall component.Name component.Destination.Path component.Strategy.Template.Schema :: r.2)
      | none =>
        (.error (.noBuilderForSchema component.Name component.Strategy.Template.Schema), [])
    | none =>
      (.error (.componentNotInConfig component.Name (mapKeys catalogBuilderMap)), [])

/-- Function `Render`: parse the catalog document, parse the contribution
document, assemble the catalog-builder map from the parsed catalogs and
the template's output type, then process the components in document
order.  The validate behaviour is controlled by the `validate`
parameter (the source ignores its context argument, which is therefore
not modelled).  The second result component is the recorded builder
invocation list. -/
def Template.Render (t : Template) (validate : Bool) :
    Except RenderError Unit × List BuilderCall :=
  match t.parseCatalogsSpec with
  | .error e => (.error e, [])
  | .ok catalogFile =>
    match t.parseContributionSpec with
    | .error e => (.error e, [])
    | .ok contributionFile =>
      match t.newCatalogBuilderMap catalogFile.Catalogs t.outputType with
      | .error e => (.error e, [])
      | .ok catalogBuilderMap =>
        renderComponents t catalogBuilderMap validate contributionFile.Components

/-- Error datatype for `FetchCatalogConfig`: one constructor per
`fmt.Errorf` site. -/
inductive FetchError where
  | openingCatalogConfigFile (path : String) (cause : String)
  | fetchingRemoteCatalogConfigFile (path : String) (cause : String)
deriving DecidableEq

/-- An HTTP response as the source consumes it: the body (returned
as-is) and the status code (which the source never reads). -/
structure HttpResponse where
  StatusCode : Nat
  Body : String
deriving DecidableEq

/-- The injected HTTP capability: `Get(url)` yields a response or a
transport error. -/
structure HttpGetter where
  Get : String → Except String HttpResponse

/-- Models the external standard-library capabilities
`FetchCatalogConfig` consumes: `url.ParseRequestURI` (on success
yielding the string the source reads back via `uri.String()`),
`filepath.IsAbs`, and `os.Open` (yielding the file contents as a
stream, or the open error). -/
structure FetchEnv where
  parseRequestURI : String → Except String String
  isAbs : String → Bool
  openFile : String → Except String String

/-- Function `FetchCatalogConfig`: treat the path as local when URI parsing
fails or the path is absolute, opening the file and wrapping an open
failure; otherwise issue a GET on the parsed URI, wrapping a transport
failure, and return the response body as-is. -/
def FetchCatalogConfig (env : FetchEnv) (path : String) (httpGetter : HttpGetter) :
    Except FetchError String :=
  match env.parseRequestURI path with
  | .error _ =>
    match env.openFile path with
    | .error e => .error (.openingCatalogConfigFile path e)
    | .ok tempCatalog => .ok tempCatalog
  | .ok catalogURI =>
    if env.isAbs path then
      match env.openFile path with
      | .error e => .error (.openingCatalogConfigFile path e)
      | .ok tempCatalog => .ok tempCatalog
    else
      match httpGetter.Get catalogURI with
      | .error e => .error (.fetchingRemoteCatalogConfigFile path e)
      | .ok tempResp => .ok tempResp.Body

/-- Specification-side description of the builder-call sequence of a
fully successful render: one `Build` per component in document order,
each immediately followed by its `Validate` when validation is
requested. -/
def successTrace (validate : Bool) : List Component → List BuilderCall
  | [] => []
  | c :: rest =>
    BuilderCall.buildCall c.Name c.Destination.Path c.Strategy.Template.Schema ::
      ((if validate then [BuilderCall.validateCall c.Name c.Destination.Path] else []) ++
        successTrace validate rest)

/-- Discriminator: is this result the aggregated field-validation
error? -/
def isFieldValidationError : Except RenderError CatalogBuilderMap → Bool
  | .error (.fieldValidationFailed _) => true
  | _ => false

/-- The error component of an assembly result, for stating decidable
facts about results whose success component contains builders. -/
def assemblyError : Except RenderError CatalogBuilderMap → Option RenderError
  | .error e => some e
  | .ok _ => none

/-- The field-error list recorded for one catalog name inside an
aggregated-validation failure. -/
def recordedFieldErrors : Except RenderError CatalogBuilderMap → String → Option (List String)
  | .error (.fieldValidationFailed setupErrors), n => mapLookup setupErrors n
  | _, _ => none

/-- Concrete catalog with empty working directory (invalid). -/
def exCatalogNoDir : Catalog :=
  { Name := "a", Destination := { WorkingDir := "" }, Builders := [] }

/-- Concrete valid catalog declaring an unregistered builder schema. -/
def exCatalogBogus : Catalog :=
  { Name := "b", Destination := { WorkingDir := "/tmp/x" }, Builders := ["bogus"] }

/-- Concrete catalog with empty working directory, second variant. -/
def exCatalogNoDirX : Catalog :=
  { Name := "x", Destination := { WorkingDir := "" }, Builders := [] }

/-- Concrete valid catalog declaring an unregistered builder schema,
second variant. -/
def exCatalogMystery : Catalog :=
  { Name := "y", Destination := { WorkingDir := "/tmp/y" }, Builders := ["mystery"] }

/-- Two invalid catalogs, to exercise full aggregation. -/
def exCatalogBad1 : Catalog :=
  { Name := "bad1", Destination := { WorkingDir := "" }, Builders := [] }

/-- Second invalid catalog, see `exCatalogBad1`. -/
def exCatalogBad2 : Catalog :=
  { Name := "bad2", Destination := { WorkingDir := "" }, Builders := [] }

/-- Concrete fully valid catalog declaring the basic builder. -/
def exCatalogStable : Catalog :=
  { Name := "stable", Destination := { WorkingDir := "/w" }, Builders := [BasicBuilderSchema] }

/-- Concrete component referencing `exCatalogStable` and the basic
schema. -/
def exComponentStable : Component :=
  { Name := "stable"
    Destination := { Path := "/out" }
    Strategy := { Template := { Schema := BasicBuilderSchema, config := "" } } }

/-- Concrete component referencing a catalog name that no catalog
declares. -/
def exComponentGhost : Component :=
  { Name := "ghost"
    Destination := { Path := "/out2" }
    Strategy := { Template := { Schema := BasicBuilderSchema, config := "" } } }

/-- Concrete component referencing `exCatalogStable` but a schema that
catalog does not declare. -/
def exComponentWrongSchema : Component :=
  { Name := "stable"
    Destination := { Path := "/out3" }
    Strategy := { Template := { Schema := SemverBuilderSchema, config := "" } } }

/-- Concrete template with one valid catalog and one well-formed
component. -/
def exTemplate : Template :=
  NewTemplate
    [WithCatalogFile (.doc { Schema := CatalogSchema, Catalogs := [exCatalogStable] }),
     WithContributionFile (.doc { Schema := CompositeSchema, Components := [exComponentStable] }),
     WithOutputType "json"]

/-- The catalog-builder map `exTemplate` assembles. -/
def exCBM : CatalogBuilderMap :=
  [("stable", [(BasicBuilderSchema, NewBasicBuilder { OutputType := "json" })])]

/-- Concrete template whose component references an unknown catalog. -/
def exTemplateGhost : Template :=
  NewTemplate
    [WithCatalogFile (.doc { Schema := CatalogSchema, Catalogs := [exCatalogStable] }),
     WithContributionFile (.doc { Schema := CompositeSchema, Components := [exComponentGhost] }),
     WithOutputType "json"]

/-- Concrete template whose component references a schema its catalog
does not declare. -/
def exTemplateWrongSchema : Template :=
  NewTemplate
    [WithCatalogFile (.doc { Schema := CatalogSchema, Catalogs := [exCatalogStable] }),
     WithContributionFile (.doc { Schema := CompositeSchema, Components := [exComponentWrongSchema] }),
     WithOutputType "json"]

/-- A builder whose `Build` always fails with the message `boom`. -/
def failingBuilder : Builder :=
  { build := fun _ _ _ => some "boom", validate := fun _ => none }

/-- Catalog declaring the failing builder's schema. -/
def exCatalogFragile : Catalog :=
  { Name := "fragile", Destination := { WorkingDir := "/w" }, Builders := ["fail.schema"] }

/-- First component of the failing-build scenario. -/
def exComponentOne : Component :=
  { Name := "fragile"
    Destination := { Path := "/p1" }
    Strategy := { Template := { Schema := "fail.schema", config := "" } } }

/-- Second component of the failing-build scenario; it must never be
built. -/
def exComponentTwo : Component :=
  { Name := "fragile"
    Destination := { Path := "/p2" }
    Strategy := { Template := { Schema := "fail.schema", config := "" } } }

/-- Concrete template whose first component's build fails. -/
def exTemplateFail : Template :=
  { catalogFile := .doc { Schema := CatalogSchema, Catalogs := [exCatalogFragile] }
    contributionFile := .doc { Schema := CompositeSchema, Components := [exComponentOne, exComponentTwo] }
    validate := false
    outputType := "json"
    registry := { tag := 0 }
    registeredBuilders := [("fail.schema", fun _ => failingBuilder)] }

/-- The catalog-builder map `exTemplateFail` assembles. -/
def exCBMFail : CatalogBuilderMap :=
  [("fragile", [("fail.schema", failingBuilder)])]

/-- Concrete template whose catalog document carries the wrong schema
constant. -/
def exTemplateWrongDoc : Template :=
  NewTemplate
    [WithCatalogFile (.doc { Schema := "nope", Catalogs := [exCatalogStable] }),
     WithContributionFile (.doc { Schema := CompositeSchema, Components := [exComponentStable] })]

/-- Duplicate-name catalog sequence: same name, different working
directories and builder lists. -/
def exDupCatalogs : List Catalog :=
  [{ Name := "a", Destination := { WorkingDir := "/x" }, Builders := [] },
   { Name := "a", Destination := { WorkingDir := "/y" }, Builders := [BasicBuilderSchema] }]

/-- Fetch environment under which every path is treated as local (URI
parsing always fails) and file contents are fixed. -/
def exEnvLocal : FetchEnv :=
  { parseRequestURI := fun _ => .error "parse error"
    isAbs := fun _ => true
    openFile := fun _ => .ok "local-data" }

/-- Fetch environment under which the path parses as a relative URI. -/
def exEnvRemote : FetchEnv :=
  { parseRequestURI := fun p => .ok p
    isAbs := fun _ => false
    openFile := fun _ => .error "no such file" }

/-- Getter returning a fixed body with a non-success status code, to
exercise the absence of status-code validation. -/
def exGetter : HttpGetter :=
  { Get := fun _ => .ok { StatusCode := 500, Body := "remote-body" } }

/-- A component succeeds under a map and registry when its catalog and
schema resolve and its `Build` (and, when requested, `Validate`)
return no error. -/
def componentSucceeds (t : Template) (cbm : CatalogBuilderMap) (v : Bool)
    (c : Component) : Prop :=
  ∃ bm b, mapLookup cbm c.Name = some bm ∧
    mapLookup bm c.Strategy.Template.Schema = some b ∧
    b.build t.registry c.Destination.Path c.Strategy.Template = none ∧
    (v = true → b.validate c.Destination.Path = none)

theorem mapLookup_insert {α : Type} (m : List (String × α)) (k k' : String) (v : α) :
    mapLookup (mapInsert m k v) k' = if k = k' then some v else mapLookup m k' := by
  induction m with
  | nil => simp [mapInsert, mapLookup]
  | cons p rest ih =>
    obtain ⟨k0, v0⟩ := p
    by_cases h0 : k0 = k
    · subst h0
      by_cases h1 : k0 = k' <;> simp [mapInsert, mapLookup, h1]
    · by_cases h1 : k0 = k'
      · subst h1
        have hkk : ¬ k = k0 := fun h => h0 h.symm
        simp [mapInsert, mapLookup, h0, hkk]
      · simp [mapInsert, mapLookup, h0, h1, ih]

theorem mapLookup_insert_of_ne {α : Type} (m : List (String × α)) (k k' : String)
    (v : α) (h : k ≠ k') : mapLookup (mapInsert m k v) k' = mapLookup m k' := by
  rw [mapLookup_insert, if_neg h]

/-- Processing a prefix of components that all succeed contributes its
canonical call sequence and defers to the rest. -/
theorem renderComponents_success_prefix (t : Template) (cbm : CatalogBuilderMap)
    (v : Bool) (pre rest : List Component)
    (hpre : ∀ p ∈ pre, componentSucceeds t cbm v p) :
    renderComponents t cbm v (pre ++ rest) =
      ((renderComponents t cbm v rest).1,
        successTrace v pre ++ (renderComponents t cbm v rest).2) := by
  induction pre with
  | nil => simp [successTrace]
  | cons p pre ih =>
    obtain ⟨bm, b, h1, h2, h3, h4⟩ := hpre p (by simp)
    have ihr := ih (fun q hq => hpre q (by simp [hq]))
    cases v with
    | false =>
      simp only [List.cons_append, renderComponents, h1, h2, h3, if_neg Bool.false_ne_true,
        ihr, successTrace]
      simp [ihr]
    | true =>
      simp only [List.cons_append, renderComponents, h1, h2, h3, if_pos rfl,
        h4 rfl, ihr, successTrace]
      simp [ihr]

/-- When both documents parse and the matrix assembles, `Render` is the
component loop over the parsed components. -/
theorem Render_eq_renderComponents (t : Template) (catalogConfig : CatalogConfig)
    (compositeConfig : CompositeConfig) (cbm : CatalogBuilderMap) (v : Bool)
    (hcat : t.parseCatalogsSpec = .ok catalogConfig)
    (hcomp : t.parseContributionSpec = .ok compositeConfig)
    (hmap : t.newCatalogBuilderMap catalogConfig.Catalogs t.outputType = .ok cbm) :
    t.Render v = renderComponents t cbm v compositeConfig.Components := by
  simp only [Template.Render, hcat, hcomp, hmap]

/-- Claim C3: for valid, schema-correct documents whose components all
reference an existing catalog and a schema that catalog declares (and
whose builder invocations succeed), `Render` returns success and calls
`Build` exactly once per component in document order, with `Validate`
exactly once per component immediately after its `Build` when
validation is requested. -/
theorem Render_success_invokes_builders_in_order (t : Template)
    (catalogConfig : CatalogConfig) (compositeConfig : CompositeConfig)
    (cbm : CatalogBuilderMap) (v : Bool)
    (hcat : t.parseCatalogsSpec = .ok catalogConfig)
    (hcomp : t.parseContributionSpec = .ok compositeConfig)
    (hmap : t.newCatalogBuilderMap catalogConfig.Catalogs t.outputType = .ok cbm)
    (hres : ∀ c ∈ compositeConfig.Components, componentSucceeds t cbm v c) :
    t.Render v = (.ok (), successTrace v compositeConfig.Components) := by
  rw [Render_eq_renderComponents t catalogConfig compositeConfig cbm v hcat hcomp hmap]
  have h := renderComponents_success_prefix t cbm v compositeConfig.Components [] hres
  simpa [renderComponents] using h

/-- Witness for C3 on a one-catalog, one-component template. -/
theorem Render_success_invokes_builders_in_order_witness :
    exTemplate.Render true =
      (.ok (), [.buildCall "stable" "/out" BasicBuilderSchema,
                .validateCall "stable" "/out"]) := by
  have h := Render_success_invokes_builders_in_order exTemplate
    { Schema := CatalogSchema, Catalogs := [exCatalogStable] }
    { Schema := CompositeSchema, Components := [exComponentStable] }
    exCBM true rfl rfl rfl
    (by
      intro c hc
      simp only [List.mem_singleton] at hc
      subst hc
      exact ⟨_, _, rfl, rfl, rfl, fun _ => rfl⟩)
  simpa [successTrace, exComponentStable] using h

/-- Claim C4: if the `Build` (or, when validation is requested, the
`Validate`) call of component k fails, `Render` returns immediately
with that error wrapped with component k's name and the original error
as cause, and no `Build` or `Validate` is ever invoked for a component
after k: the recorded call list ends at component k. -/
theorem Render_stops_at_first_failing_component (t : Template)
    (catalogConfig : CatalogConfig) (compositeConfig : CompositeConfig)
    (cbm : CatalogBuilderMap) (v : Bool) (pre post : List Component)
    (c : Component) (bm : BuilderMap) (b : Builder)
    (hcat : t.parseCatalogsSpec = .ok catalogConfig)
    (hcomp : t.parseContributionSpec = .ok compositeConfig)
    (hmap : t.newCatalogBuilderMap catalogConfig.Catalogs t.outputType = .ok cbm)
    (hsplit : compositeConfig.Components = pre ++ c :: post)
    (hpre : ∀ p ∈ pre, componentSucceeds t cbm v p)
    (hbm : mapLookup cbm c.Name = some bm)
    (hb : mapLookup bm c.Strategy.Template.Schema = some b) :
    (∀ e, b.build t.registry c.Destination.Path c.Strategy.Template = some e →
      t.Render v = (.error (.buildingComponentFailed c.Name e),
        successTrace v pre ++
          [.buildCall c.Name c.Destination.Path c.Strategy.Template.Schema])) ∧
    (∀ e, b.build t.registry c.Destination.Path c.Strategy.Template = none →
      v = true → b.validate c.Destination.Path = some e →
      t.Render v = (.error (.validatingComponentFailed c.Name e),
        successTrace v pre ++
          [.buildCall c.Name c.Destination.Path c.Strategy.Template.Schema,
           .validateCall c.Name c.Destination.Path])) := by
  have hr : t.Render v = renderComponents t cbm v (pre ++ c :: post) := by
    rw [Render_eq_renderComponents t catalogConfig compositeConfig cbm v hcat hcomp hmap, hsplit]
  have hpref := renderComponents_success_prefix t cbm v pre (c :: post) hpre
  constructor
  · intro e he
    rw [hr, hpref]
    simp only [renderComponents, hbm, hb, he]
  · intro e he hv hval
    subst hv
    rw [hr, hpref]
    simp only [renderComponents, hbm, hb, he, if_pos rfl, hval]
    simp

/-- Witness for C4: the first component's build fails, the second is
never attempted. -/
theorem Render_stops_at_first_failing_component_witness :
    exTemplateFail.Render false =
      (.error (.buildingComponentFailed "fragile" "boom"),
       [.buildCall "fragile" "/p1" "fail.schema"]) := by
  have h := (Render_stops_at_first_failing_component exTemplateFail
    { Schema := CatalogSchema, Catalogs := [exCatalogFragile] }
    { Schema := CompositeSchema, Components := [exComponentOne, exComponentTwo] }
    exCBMFail false [] [exComponentTwo] exComponentOne
    [("fail.schema", failingBuilder)] failingBuilder
    rfl rfl rfl rfl (by simp) rfl rfl).1 "boom" rfl
  simpa [successTrace, exComponentOne] using h

/-- Claim C6: a component whose name is absent from the assembled map
makes `Render` fail with the unknown-component-catalog error carrying
every valid catalog name of the map, and no `Build` is invoked for that
component (the recorded calls are exactly those of the earlier
components). -/
theorem Render_unknown_component_catalog (t : Template)
    (catalogConfig : CatalogConfig) (compositeConfig : CompositeConfig)
    (cbm : CatalogBuilderMap) (v : Bool) (pre post : List Component) (c : Component)
    (hcat : t.parseCatalogsSpec = .ok catalogConfig)
    (hcomp : t.parseContributionSpec = .ok compositeConfig)
    (hmap : t.newCatalogBuilderMap catalogConfig.Catalogs t.outputType = .ok cbm)
    (hsplit : compositeConfig.Components = pre ++ c :: post)
    (hpre : ∀ p ∈ pre, componentSucceeds t cbm v p)
    (hmiss : mapLookup cbm c.Name = none) :
    t.Render v = (.error (.componentNotInConfig c.Name (mapKeys cbm)),
      successTrace v pre) := by
  have hr : t.Render v = renderComponents t cbm v (pre ++ c :: post) := by
    rw [Render_eq_renderComponents t catalogConfig compositeConfig cbm v hcat hcomp hmap, hsplit]
  rw [hr, renderComponents_success_prefix t cbm v pre (c :: post) hpre]
  simp only [renderComponents, hmiss]
  simp

/-- Witness for C6: the lone component names catalog `ghost`, absent
from the map whose only key is `stable`. -/
theorem Render_unknown_component_catalog_witness :
    exTemplateGhost.Render false =
      (.error (.componentNotInConfig "ghost" ["stable"]), []) := by
  have h := Render_unknown_component_catalog exTemplateGhost
    { Schema := CatalogSchema, Catalogs := [exCatalogStable] }
    { Schema := CompositeSchema, Components := [exComponentGhost] }
    exCBM false [] [] exComponentGhost
    rfl rfl rfl rfl (by simp) rfl
  simpa [successTrace] using h

/-- Claim C7: a component naming an existing catalog but declaring a
schema absent from that catalog's builder map makes `Render` fail with
the unknown-component-schema error wrapped with the component's name,
and no `Build` is invoked for that component. -/
theorem Render_unknown_component_schema (t : Template)
    (catalogConfig : CatalogConfig) (compositeConfig : CompositeConfig)
    (cbm : CatalogBuilderMap) (v : Bool) (pre post : List Component)
    (c : Component) (bm : BuilderMap)
    (hcat : t.parseCatalogsSpec = .ok catalogConfig)
    (hcomp : t.parseContributionSpec = .ok compositeConfig)
    (hmap : t.newCatalogBuilderMap catalogConfig.Catalogs t.outputType = .ok cbm)
    (hsplit : compositeConfig.Components = pre ++ c :: post)
    (hpre : ∀ p ∈ pre, componentSucceeds t cbm v p)
    (hbm : mapLookup cbm c.Name = some bm)
    (hmiss : mapLookup bm c.Strategy.Template.Schema = none) :
    t.Render v = (.error (.noBuilderForSchema c.Name c.Strategy.Template.Schema),
      successTrace v pre) := by
  have hr : t.Render v = renderComponents t cbm v (pre ++ c :: post) := by
    rw [Render_eq_renderComponents t catalogConfig compositeConfig cbm v hcat hcomp hmap, hsplit]
  rw [hr, renderComponents_success_prefix t cbm v pre (c :: post) hpre]
  simp only [renderComponents, hbm, hmiss]
  simp

/-- Witness for C7: the component references catalog `stable` but the
semver schema, which that catalog does not declare. -/
theorem Render_unknown_component_schema_witness :
    exTemplateWrongSchema.Render false =
      (.error (.noBuilderForSchema "stable" SemverBuilderSchema), []) := by
  have h := Render_unknown_component_schema exTemplateWrongSchema
    { Schema := CatalogSchema, Catalogs := [exCatalogStable] }
    { Schema := CompositeSchema, Components := [exComponentWrongSchema] }
    exCBM false [] [] exComponentWrongSchema
    [(BasicBuilderSchema, NewBasicBuilder { OutputType := "json" })]
    rfl rfl rfl rfl (by simp) rfl rfl
  simpa [successTrace] using h

/-- Claim C8: a document whose decoded schema field differs from the
expected constant is rejected at parse time with the schema-mismatch
error regardless of its other contents, and the failure is fatal to the
whole render: the result is that error and no builder is ever invoked
(the recorded call list is empty). -/
theorem parse_schema_mismatch_is_fatal (t : Template) (v : Bool) :
    (∀ cfg : CatalogConfig, t.catalogFile = .doc cfg → cfg.Schema ≠ CatalogSchema →
      t.Render v = (.error (.catalogUnknownSchema CatalogSchema), [])) ∧
    (∀ cfg : CompositeConfig, t.contributionFile = .doc cfg →
      cfg.Schema ≠ CompositeSchema →
      (∀ e, t.parseCatalogsSpec ≠ .error e) →
      t.Render v = (.error (.compositeUnknownSchema CompositeSchema), [])) := by
  constructor
  · intro cfg hdoc hne
    have hp : t.parseCatalogsSpec = .error (.catalogUnknownSchema CatalogSchema) := by
      simp [Template.parseCatalogsSpec, hdoc, hne]
    simp [Template.Render, hp]
  · intro cfg hdoc hne hok
    have hp : t.parseContributionSpec = .error (.compositeUnknownSchema CompositeSchema) := by
      simp [Template.parseContributionSpec, hdoc, hne]
    match hcat : t.parseCatalogsSpec with
    | .error e => exact absurd hcat (hok e)
    | .ok catalogConfig => simp [Template.Render, hcat, hp]

/-- Witness for C8: an otherwise well-formed catalog document whose
schema field is "nope" aborts the render before any build. -/
theorem parse_schema_mismatch_is_fatal_witness :
    exTemplateWrongDoc.Render true =
      (.error (.catalogUnknownSchema CatalogSchema), []) :=
  (parse_schema_mismatch_is_fatal exTemplateWrongDoc true).1
    { Schema := "nope", Catalogs := [exCatalogStable] } rfl (by decide)

theorem parseCatalogsSpec_congr (t1 t2 : Template)
    (h : t1.catalogFile = t2.catalogFile) :
    t1.parseCatalogsSpec = t2.parseCatalogsSpec := by
  unfold Template.parseCatalogsSpec
  rw [h]

theorem parseContributionSpec_congr (t1 t2 : Template)
    (h : t1.contributionFile = t2.contributionFile) :
    t1.parseContributionSpec = t2.parseContributionSpec := by
  unfold Template.parseContributionSpec
  rw [h]

theorem builderForSchema_congr (t1 t2 : Template)
    (h : t1.registeredBuilders = t2.registeredBuilders) (schema : String)
    (cfg : BuilderConfig) :
    t1.builderForSchema schema cfg = t2.builderForSchema schema cfg := by
  unfold Template.builderForSchema
  rw [h]

theorem buildersLoop_congr (t1 t2 : Template)
    (h : t1.registeredBuilders = t2.registeredBuilders) (ot n : String) :
    ∀ (schemas : List String) (bm : BuilderMap),
      buildersLoop t1 ot n schemas bm = buildersLoop t2 ot n schemas bm := by
  intro schemas
  induction schemas with
  | nil => intro bm; rfl
  | cons s rest ih =>
    intro bm
    unfold buildersLoop
    rw [builderForSchema_congr t1 t2 h]
    cases hx : t2.builderForSchema s { OutputType := ot } with
    | error e => rfl
    | ok b => exact ih _

theorem catalogsLoop_congr (t1 t2 : Template)
    (h : t1.registeredBuilders = t2.registeredBuilders) (ot : String) :
    ∀ (cs : List Catalog) (f : Bool) (es : List (String × List String))
      (m : CatalogBuilderMap),
      catalogsLoop t1 ot cs f es m = catalogsLoop t2 ot cs f es m := by
  intro cs
  induction cs with
  | nil => intro f es m; rfl
  | cons cat rest ih =>
    intro f es m
    unfold catalogsLoop
    rw [buildersLoop_congr t1 t2 h]
    by_cases hw : cat.Destination.WorkingDir = ""
    · simp [hw, ih]
    · simp only [beq_eq_false_iff_ne.mpr hw]
      simp only [List.length_nil, gt_iff_lt, Nat.lt_irrefl, if_false]
      by_cases hc : mapContains m cat.Name
      · simp [hc, ih]
      · simp only [hc, if_false]
        cases hx : buildersLoop t2 ot cat.Name cat.Builders [] with
        | error e => rfl
        | ok bm => exact ih _ _ _

theorem newCatalogBuilderMap_congr (t1 t2 : Template)
    (h : t1.registeredBuilders = t2.registeredBuilders)
    (catalogs : List Catalog) (ot : String) :
    t1.newCatalogBuilderMap catalogs ot = t2.newCatalogBuilderMap catalogs ot := by
  unfold Template.newCatalogBuilderMap
  rw [catalogsLoop_congr t1 t2 h]

theorem renderComponents_congr (t1 t2 : Template) (cbm : CatalogBuilderMap)
    (v : Bool) (h : t1.registry = t2.registry) :
    ∀ cs : List Component, renderComponents t1 cbm v cs = renderComponents t2 cbm v cs := by
  intro cs
  induction cs with
  | nil => rfl
  | cons c rest ih =>
    unfold renderComponents
    rw [h, ih]

/-- Claim C10: the outcome of `Render` is determined solely by its
validate parameter; the template field set by `WithValidate` is never
read, so templates differing only in that field render identically. -/
theorem Render_independent_of_validate_field (t : Template) (b : Bool) (v : Bool) :
    (WithValidate b t).Render v = t.Render v := by
  unfold Template.Render
  rw [parseCatalogsSpec_congr (WithValidate b t) t rfl,
    parseContributionSpec_congr (WithValidate b t) t rfl]
  cases hcat : t.parseCatalogsSpec with
  | error e => rfl
  | ok catalogConfig =>
    cases hcomp : t.parseContributionSpec with
    | error e => rfl
    | ok compositeConfig =>
      have hot : (WithValidate b t).outputType = t.outputType := rfl
      dsimp only
      rw [hot, newCatalogBuilderMap_congr (WithValidate b t) t rfl]
      cases hmap : t.newCatalogBuilderMap catalogConfig.Catalogs t.outputType with
      | error e => rfl
      | ok cbm => exact renderComponents_congr (WithValidate b t) t cbm v rfl _

theorem mapContains_iff {α : Type} (m : List (String × α)) (k : String) :
    mapContains m k = true ↔ ∃ v, mapLookup m k = some v := by
  cases h : mapLookup m k <;> simp [mapContains, h]

theorem mapContains_eq_false {α : Type} (m : List (String × α)) (k : String) :
    mapContains m k = false ↔ mapLookup m k = none := by
  cases h : mapLookup m k <;> simp [mapContains, h]

/-- Unfolding: an invalid catalog records its error and is skipped. -/
theorem catalogsLoop_cons_invalid (t : Template) (ot : String) (cat : Catalog)
    (rest : List Catalog) (f : Bool) (es : List (String × List String))
    (m : CatalogBuilderMap) (hw : cat.Destination.WorkingDir = "") :
    catalogsLoop t ot (cat :: rest) f es m =
      catalogsLoop t ot rest true (mapInsert es cat.Name [workingDirErrMsg]) m := by
  simp [catalogsLoop, hw]

/-- Unfolding: a valid catalog whose name is already mapped is
skipped. -/
theorem catalogsLoop_cons_skip (t : Template) (ot : String) (cat : Catalog)
    (rest : List Catalog) (f : Bool) (es : List (String × List String))
    (m : CatalogBuilderMap) (hw : cat.Destination.WorkingDir ≠ "")
    (hc : mapContains m cat.Name = true) :
    catalogsLoop t ot (cat :: rest) f es m = catalogsLoop t ot rest f es m := by
  simp [catalogsLoop, beq_eq_false_iff_ne.mpr hw, hc]

/-- Unfolding: a valid, unmapped catalog whose builders all resolve is
inserted. -/
theorem catalogsLoop_cons_insert (t : Template) (ot : String) (cat : Catalog)
    (rest : List Catalog) (f : Bool) (es : List (String × List String))
    (m : CatalogBuilderMap) (bm : BuilderMap) (hw : cat.Destination.WorkingDir ≠ "")
    (hc : mapContains m cat.Name = false)
    (hb : buildersLoop t ot cat.Name cat.Builders [] = .ok bm) :
    catalogsLoop t ot (cat :: rest) f es m =
      catalogsLoop t ot rest f es (mapInsert m cat.Name bm) := by
  simp [catalogsLoop, beq_eq_false_iff_ne.mpr hw, hc, hb]

/-- Unfolding: a valid, unmapped catalog with an unresolvable builder
schema aborts the whole assembly. -/
theorem catalogsLoop_cons_resolution_error (t : Template) (ot : String) (cat : Catalog)
    (rest : List Catalog) (f : Bool) (es : List (String × List String))
    (m : CatalogBuilderMap) (e : RenderError) (hw : cat.Destination.WorkingDir ≠ "")
    (hc : mapContains m cat.Name = false)
    (hb : buildersLoop t ot cat.Name cat.Builders [] = .error e) :
    catalogsLoop t ot (cat :: rest) f es m = .error e := by
  simp [catalogsLoop, beq_eq_false_iff_ne.mpr hw, hc, hb]

/-- Builder resolution over a schema list cannot fail when every schema
is registered. -/
theorem buildersLoop_isOk (t : Template) (ot n : String) :
    ∀ (schemas : List String) (bm : BuilderMap),
      (∀ s ∈ schemas, mapContains t.registeredBuilders s = true) →
      ∃ bm', buildersLoop t ot n schemas bm = .ok bm' := by
  intro schemas
  induction schemas with
  | nil => intro bm _; exact ⟨bm, rfl⟩
  | cons s rest ih =>
    intro bm h
    obtain ⟨fac, hfac⟩ := (mapContains_iff t.registeredBuilders s).mp (h s (by simp))
    have hbfs : t.builderForSchema s { OutputType := ot } = .ok (fac { OutputType := ot }) := by
      simp [Template.builderForSchema, hfac]
    obtain ⟨bm', hbm'⟩ := ih (mapInsert bm s (fac { OutputType := ot }))
      (fun s' hs' => h s' (by simp [hs']))
    exact ⟨bm', by simp only [buildersLoop, hbfs, hbm']⟩

/-- The catalog loop cannot fail when every schema declared by a
validation-passing catalog is registered. -/
theorem catalogsLoop_isOk (t : Template) (ot : String) :
    ∀ (cs : List Catalog),
      (∀ cat ∈ cs, cat.Destination.WorkingDir ≠ "" →
        ∀ s ∈ cat.Builders, mapContains t.registeredBuilders s = true) →
      ∀ (f : Bool) (es : List (String × List String)) (m : CatalogBuilderMap),
      ∃ out, catalogsLoop t ot cs f es m = .ok out := by
  intro cs
  induction cs with
  | nil => intro _ f es m; exact ⟨(f, es, m), rfl⟩
  | cons cat rest ih =>
    intro h f es m
    by_cases hw : cat.Destination.WorkingDir = ""
    · rw [catalogsLoop_cons_invalid t ot cat rest f es m hw]
      exact ih (fun c hc => h c (by simp [hc])) _ _ _
    · by_cases hc : mapContains m cat.Name = true
      · rw [catalogsLoop_cons_skip t ot cat rest f es m hw hc]
        exact ih (fun c hc' => h c (by simp [hc'])) _ _ _
      · have hc' : mapContains m cat.Name = false := by simpa using hc
        obtain ⟨bm, hb⟩ := buildersLoop_isOk t ot cat.Name cat.Builders []
          (h cat (by simp) hw)
        rw [catalogsLoop_cons_insert t ot cat rest f es m bm hw hc' hb]
        exact ih (fun c hc'' => h c (by simp [hc''])) _ _ _

/-- The failed flag is monotone along the catalog loop. -/
theorem catalogsLoop_flag_mono (t : Template) (ot : String) :
    ∀ (cs : List Catalog) (f : Bool) (es : List (String × List String))
      (m : CatalogBuilderMap) (out : Bool × List (String × List String) × CatalogBuilderMap),
      catalogsLoop t ot cs f es m = .ok out → f = true → out.1 = true := by
  intro cs
  induction cs with
  | nil =>
    intro f es m out h hf
    cases h
    exact hf
  | cons cat rest ih =>
    intro f es m out h hf
    by_cases hw : cat.Destination.WorkingDir = ""
    · rw [catalogsLoop_cons_invalid t ot cat rest f es m hw] at h
      exact ih _ _ _ _ h rfl
    · by_cases hc : mapContains m cat.Name = true
      · rw [catalogsLoop_cons_skip t ot cat rest f es m hw hc] at h
        exact ih _ _ _ _ h hf
      · have hc' : mapContains m cat.Name = false := by simpa using hc
        cases hb : buildersLoop t ot cat.Name cat.Builders [] with
        | error e =>
          rw [catalogsLoop_cons_resolution_error t ot cat rest f es m e hw hc' hb] at h
          cases h
        | ok bm =>
          rw [catalogsLoop_cons_insert t ot cat rest f es m bm hw hc' hb] at h
          exact ih _ _ _ _ h hf

/-- An offending catalog anywhere in the input forces the failed
flag. -/
theorem catalogsLoop_offender_flag (t : Template) (ot : String) :
    ∀ (cs : List Catalog) (f : Bool) (es : List (String × List String))
      (m : CatalogBuilderMap) (out : Bool × List (String × List String) × CatalogBuilderMap),
      catalogsLoop t ot cs f es m = .ok out →
      (∃ cat ∈ cs, cat.Destination.WorkingDir = "") → out.1 = true := by
  intro cs
  induction cs with
  | nil =>
    intro f es m out _ hbad
    obtain ⟨cat, hc, _⟩ := hbad
    cases hc
  | cons cat0 rest ih =>
    intro f es m out h hbad
    by_cases hw : cat0.Destination.WorkingDir = ""
    · rw [catalogsLoop_cons_invalid t ot cat0 rest f es m hw] at h
      exact catalogsLoop_flag_mono t ot rest _ _ _ _ h rfl
    · obtain ⟨cat, hc, hcw⟩ := hbad
      have hcr : cat ∈ rest := by
        rcases List.mem_cons.mp hc with h0 | h0
        · exact absurd (h0 ▸ hcw) hw
        · exact h0
      by_cases hc0 : mapContains m cat0.Name = true
      · rw [catalogsLoop_cons_skip t ot cat0 rest f es m hw hc0] at h
        exact ih _ _ _ _ h ⟨cat, hcr, hcw⟩
      · have hc' : mapContains m cat0.Name = false := by simpa using hc0
        cases hb : buildersLoop t ot cat0.Name cat0.Builders [] with
        | error e =>
          rw [catalogsLoop_cons_resolution_error t ot cat0 rest f es m e hw hc' hb] at h
          cases h
        | ok bm =>
          rw [catalogsLoop_cons_insert t ot cat0 rest f es m bm hw hc' hb] at h
          exact ih _ _ _ _ h ⟨cat, hcr, hcw⟩

/-- A run ending with the failed flag clear saw only valid catalogs. -/
theorem catalogsLoop_ok_false_valid (t : Template) (ot : String)
    (cs : List Catalog) (f : Bool) (es es' : List (String × List String))
    (m m' : CatalogBuilderMap)
    (h : catalogsLoop t ot cs f es m = .ok (false, es', m')) :
    ∀ cat ∈ cs, cat.Destination.WorkingDir ≠ "" := by
  intro cat hc hw
  have := catalogsLoop_offender_flag t ot cs f es m (false, es', m') h ⟨cat, hc, hw⟩
  simp at this

/-- The recorded validation errors survive the loop and cover every
offending catalog. -/
theorem catalogsLoop_setupErrors (t : Template) (ot : String) :
    ∀ (cs : List Catalog) (f : Bool) (es : List (String × List String))
      (m : CatalogBuilderMap) (out : Bool × List (String × List String) × CatalogBuilderMap),
      catalogsLoop t ot cs f es m = .ok out →
      (∀ n, mapLookup es n = some [workingDirErrMsg] →
        mapLookup out.2.1 n = some [workingDirErrMsg]) ∧
      (∀ cat ∈ cs, cat.Destination.WorkingDir = "" →
        mapLookup out.2.1 cat.Name = some [workingDirErrMsg]) := by
  intro cs
  induction cs with
  | nil =>
    intro f es m out h
    cases h
    exact ⟨fun n hn => hn, fun cat hc => absurd hc (List.not_mem_nil cat)⟩
  | cons cat0 rest ih =>
    intro f es m out h
    by_cases hw : cat0.Destination.WorkingDir = ""
    · rw [catalogsLoop_cons_invalid t ot cat0 rest f es m hw] at h
      obtain ⟨P, C⟩ := ih _ _ _ _ h
      have hins : ∀ n, mapLookup es n = some [workingDirErrMsg] →
          mapLookup (mapInsert es cat0.Name [workingDirErrMsg]) n = some [workingDirErrMsg] := by
        intro n hn
        rw [mapLookup_insert]
        by_cases he : cat0.Name = n <;> simp [he, hn]
      refine ⟨fun n hn => P n (hins n hn), ?_⟩
      intro cat hc hcw
      rcases List.mem_cons.mp hc with h0 | h0
      · subst h0
        exact P cat.Name (by rw [mapLookup_insert, if_pos rfl])
      · exact C cat h0 hcw
    · by_cases hc0 : mapContains m cat0.Name = true
      · rw [catalogsLoop_cons_skip t ot cat0 rest f es m hw hc0] at h
        obtain ⟨P, C⟩ := ih _ _ _ _ h
        refine ⟨P, ?_⟩
        intro cat hc hcw
        rcases List.mem_cons.mp hc with h0 | h0
        · exact absurd (h0 ▸ hcw) hw
        · exact C cat h0 hcw
      · have hc' : mapContains m cat0.Name = false := by simpa using hc0
        cases hb : buildersLoop t ot cat0.Name cat0.Builders [] with
        | error e =>
          rw [catalogsLoop_cons_resolution_error t ot cat0 rest f es m e hw hc' hb] at h
          cases h
        | ok bm =>
          rw [catalogsLoop_cons_insert t ot cat0 rest f es m bm hw hc' hb] at h
          obtain ⟨P, C⟩ := ih _ _ _ _ h
          refine ⟨P, ?_⟩
          intro cat hc hcw
          rcases List.mem_cons.mp hc with h0 | h0
          · exact absurd (h0 ▸ hcw) hw
          · exact C cat h0 hcw

/-- Existing map entries survive the rest of the loop: the loop only
inserts names it has not mapped yet. -/
theorem catalogsLoop_map_preserved (t : Template) (ot : String) :
    ∀ (cs : List Catalog) (f : Bool) (es : List (String × List String))
      (m : CatalogBuilderMap) (out : Bool × List (String × List String) × CatalogBuilderMap)
      (n : String) (bm : BuilderMap),
      catalogsLoop t ot cs f es m = .ok out → mapLookup m n = some bm →
      mapLookup out.2.2 n = some bm := by
  intro cs
  induction cs with
  | nil =>
    intro f es m out n bm h hn
    cases h
    exact hn
  | cons cat0 rest ih =>
    intro f es m out n bm h hn
    by_cases hw : cat0.Destination.WorkingDir = ""
    · rw [catalogsLoop_cons_invalid t ot cat0 rest f es m hw] at h
      exact ih _ _ _ _ _ _ h hn
    · by_cases hc0 : mapContains m cat0.Name = true
      · rw [catalogsLoop_cons_skip t ot cat0 rest f es m hw hc0] at h
        exact ih _ _ _ _ _ _ h hn
      · have hc' : mapContains m cat0.Name = false := by simpa using hc0
        have hne : cat0.Name ≠ n := by
          intro he
          have hnone := (mapContains_eq_false m cat0.Name).mp hc'
          rw [he] at hnone
          rw [hnone] at hn
          cases hn
        cases hb : buildersLoop t ot cat0.Name cat0.Builders [] with
        | error e =>
          rw [catalogsLoop_cons_resolution_error t ot cat0 rest f es m e hw hc' hb] at h
          cases h
        | ok bm0 =>
          rw [catalogsLoop_cons_insert t ot cat0 rest f es m bm0 hw hc' hb] at h
          exact ih _ _ _ _ _ _ h (by rw [mapLookup_insert_of_ne _ _ _ _ hne]; exact hn)

/-- In a run ending with the failed flag clear, the map entry of a name
not yet mapped comes from the first catalog of that name. -/
theorem catalogsLoop_first_occurrence (t : Template) (ot : String) :
    ∀ (cs : List Catalog) (f : Bool) (es : List (String × List String))
      (m : CatalogBuilderMap) (es' : List (String × List String))
      (m' : CatalogBuilderMap) (n : String) (cat : Catalog),
      catalogsLoop t ot cs f es m = .ok (false, es', m') →
      List.find? (fun c => c.Name == n) cs = some cat →
      mapLookup m n = none →
      ∃ bm, buildersLoop t ot cat.Name cat.Builders [] = .ok bm ∧
        mapLookup m' n = some bm := by
  intro cs
  induction cs with
  | nil =>
    intro f es m es' m' n cat _ hfind _
    cases hfind
  | cons cat0 rest ih =>
    intro f es m es' m' n cat h hfind hn
    have hvalid := catalogsLoop_ok_false_valid t ot (cat0 :: rest) f es es' m m' h
    have hw : cat0.Destination.WorkingDir ≠ "" := hvalid cat0 (by simp)
    by_cases heq : cat0.Name = n
    · have hfind0 : cat0 = cat := by
        rw [List.find?_cons_of_pos _ (by simp [heq])] at hfind
        exact Option.some.inj hfind
      have hc' : mapContains m cat0.Name = false := by
        rw [mapContains_eq_false, heq]
        exact hn
      cases hb : buildersLoop t ot cat0.Name cat0.Builders [] with
      | error e =>
        rw [catalogsLoop_cons_resolution_error t ot cat0 rest f es m e hw hc' hb] at h
        cases h
      | ok bm =>
        rw [catalogsLoop_cons_insert t ot cat0 rest f es m bm hw hc' hb] at h
        refine ⟨bm, ?_, ?_⟩
        · rw [← hfind0]
          simp [hb]
        · exact catalogsLoop_map_preserved t ot rest f es (mapInsert m cat0.Name bm)
            (false, es', m') n bm h (by rw [mapLookup_insert, if_pos heq])
    · have hfind' : List.find? (fun c => c.Name == n) rest = some cat := by
        rw [List.find?_cons_of_neg _ (by simp [heq])] at hfind
        exact hfind
      by_cases hc0 : mapContains m cat0.Name = true
      · rw [catalogsLoop_cons_skip t ot cat0 rest f es m hw hc0] at h
        exact ih _ _ _ _ _ _ _ h hfind' hn
      · have hc' : mapContains m cat0.Name = false := by simpa using hc0
        cases hb : buildersLoop t ot cat0.Name cat0.Builders [] with
        | error e =>
          rw [catalogsLoop_cons_resolution_error t ot cat0 rest f es m e hw hc' hb] at h
          cases h
        | ok bm0 =>
          rw [catalogsLoop_cons_insert t ot cat0 rest f es m bm0 hw hc' hb] at h
          exact ih _ _ _ _ _ _ _ h hfind'
            (by rw [mapLookup_insert_of_ne _ _ _ _ heq]; exact hn)

/-- Counterexample to claim C1 as stated: a catalog sequence with one
empty-workingDir catalog and one valid catalog declaring the
unregistered schema "bogus" makes newCatalogBuilderMap fail with the
builder-resolution (unknown-schema) error, not with the aggregated
validation error — builder resolution is interleaved per catalog, not
gated on all catalogs passing validation. -/
theorem newCatalogBuilderMap_resolution_preempts_validation_cex :
    assemblyError ((NewTemplate []).newCatalogBuilderMap [exCatalogNoDir, exCatalogBogus] "json")
      = some (.gettingBuilder "bogus" "b" (.unknownSchema "bogus")) ∧
    isFieldValidationError
      ((NewTemplate []).newCatalogBuilderMap [exCatalogNoDir, exCatalogBogus] "json") = false := by
  constructor <;> decide

/-- Claim C1 (amended): when at least one catalog has an empty
workingDir and every schema declared by a validation-passing catalog is
registered, newCatalogBuilderMap fails with the aggregated validation
error; when a validation-passing catalog declares an unregistered
schema, the unknown-schema resolution error can be returned instead. -/
theorem newCatalogBuilderMap_aggregates_when_resolution_succeeds (t : Template)
    (catalogs : List Catalog) (ot : String)
    (hbad : ∃ cat ∈ catalogs, cat.Destination.WorkingDir = "")
    (hreg : ∀ cat ∈ catalogs, cat.Destination.WorkingDir ≠ "" →
      ∀ s ∈ cat.Builders, mapContains t.registeredBuilders s = true) :
    ∃ es, t.newCatalogBuilderMap catalogs ot = .error (.fieldValidationFailed es) := by
  obtain ⟨out, hout⟩ := catalogsLoop_isOk t ot catalogs hreg false [] []
  have hflag := catalogsLoop_offender_flag t ot catalogs false [] [] out hout hbad
  obtain ⟨f, es, m⟩ := out
  refine ⟨es, ?_⟩
  unfold Template.newCatalogBuilderMap
  rw [hout]
  simp only at hflag
  rw [hflag]
  simp

/-- Witness for the amended C1 on a one-catalog offending input. -/
theorem newCatalogBuilderMap_aggregates_when_resolution_succeeds_witness :
    isFieldValidationError
      ((NewTemplate []).newCatalogBuilderMap [exCatalogBad1] "json") = true := by
  obtain ⟨es, hes⟩ := newCatalogBuilderMap_aggregates_when_resolution_succeeds
    (NewTemplate []) [exCatalogBad1] "json"
    ⟨exCatalogBad1, by simp, rfl⟩
    (by
      intro cat hc hw
      simp only [List.mem_singleton] at hc
      subst hc
      exact absurd rfl hw)
  rw [hes]
  rfl

/-- Counterexample to claim C2 as stated: a sequence holding an
empty-workingDir catalog still does not fail with the aggregated
validation error when a later valid catalog declares the unregistered
schema "mystery" — that resolution error is returned first. -/
theorem newCatalogBuilderMap_aggregation_preempted_cex :
    assemblyError ((NewTemplate []).newCatalogBuilderMap [exCatalogNoDirX, exCatalogMystery] "json")
      = some (.gettingBuilder "mystery" "y" (.unknownSchema "mystery")) ∧
    isFieldValidationError
      ((NewTemplate []).newCatalogBuilderMap [exCatalogNoDirX, exCatalogMystery] "json") = false := by
  constructor <;> decide

/-- Claim C2 (amended): when every schema declared by a
validation-passing catalog is registered, a catalog sequence with at
least one empty-workingDir catalog makes newCatalogBuilderMap fail with
an aggregated validation error that records, for every offending
catalog, the specific workingDir field error under that catalog's name
— never just the first offender. -/
theorem newCatalogBuilderMap_names_every_offender (t : Template)
    (catalogs : List Catalog) (ot : String)
    (hbad : ∃ cat ∈ catalogs, cat.Destination.WorkingDir = "")
    (hreg : ∀ cat ∈ catalogs, cat.Destination.WorkingDir ≠ "" →
      ∀ s ∈ cat.Builders, mapContains t.registeredBuilders s = true) :
    ∃ es, t.newCatalogBuilderMap catalogs ot = .error (.fieldValidationFailed es) ∧
      ∀ cat ∈ catalogs, cat.Destination.WorkingDir = "" →
        mapLookup es cat.Name = some [workingDirErrMsg] := by
  obtain ⟨out, hout⟩ := catalogsLoop_isOk t ot catalogs hreg false [] []
  have hflag := catalogsLoop_offender_flag t ot catalogs false [] [] out hout hbad
  have hcov := (catalogsLoop_setupErrors t ot catalogs false [] [] out hout).2
  obtain ⟨f, es, m⟩ := out
  refine ⟨es, ?_, hcov⟩
  unfold Template.newCatalogBuilderMap
  rw [hout]
  simp only at hflag
  rw [hflag]
  simp

/-- Witness for the amended C2: both offending catalogs of a
two-offender input are recorded, each under its own name with the
workingDir field error. -/
theorem newCatalogBuilderMap_names_every_offender_witness :
    recordedFieldErrors
      ((NewTemplate []).newCatalogBuilderMap [exCatalogBad1, exCatalogBad2] "json") "bad1"
      = some [workingDirErrMsg] ∧
    recordedFieldErrors
      ((NewTemplate []).newCatalogBuilderMap [exCatalogBad1, exCatalogBad2] "json") "bad2"
      = some [workingDirErrMsg] := by
  obtain ⟨es, heq, hall⟩ := newCatalogBuilderMap_names_every_offender
    (NewTemplate []) [exCatalogBad1, exCatalogBad2] "json"
    ⟨exCatalogBad1, by simp, rfl⟩
    (by
      intro cat hc hw
      rcases List.mem_cons.mp hc with h0 | h0
      · subst h0
        exact absurd rfl hw
      · simp only [List.mem_singleton] at h0
        subst h0
        exact absurd rfl hw)
  rw [heq]
  exact ⟨hall exCatalogBad1 (by simp) rfl, hall exCatalogBad2 (by simp) rfl⟩

/-- Claim C5: when assembly succeeds and a name occurs in the catalog
sequence, the assembled entry for that name is the builder map built
from the first catalog of that name in the sequence — the assembler
skips catalogs whose name is already mapped, so later definitions never
overwrite earlier ones. -/
theorem newCatalogBuilderMap_first_occurrence_wins (t : Template)
    (catalogs : List Catalog) (ot : String) (m : CatalogBuilderMap)
    (n : String) (cat : Catalog)
    (h : t.newCatalogBuilderMap catalogs ot = .ok m)
    (hfind : List.find? (fun c => c.Name == n) catalogs = some cat) :
    ∃ bm, buildersLoop t ot cat.Name cat.Builders [] = .ok bm ∧
      mapLookup m n = some bm := by
  unfold Template.newCatalogBuilderMap at h
  cases hloop : catalogsLoop t ot catalogs false [] [] with
  | error e =>
    rw [hloop] at h
    cases h
  | ok out =>
    rw [hloop] at h
    obtain ⟨f, es, m'⟩ := out
    cases f with
    | true => simp at h
    | false =>
      simp only [if_neg Bool.false_ne_true] at h
      have hm : m' = m := Except.ok.inj h
      subst hm
      exact catalogsLoop_first_occurrence t ot catalogs false [] [] es _ n cat hloop hfind rfl

/-- Witness for C5: a duplicated catalog name; the first occurrence
declares no builders, the second declares the basic builder, and the
assembled entry is the first occurrence's empty builder map. -/
theorem newCatalogBuilderMap_first_occurrence_wins_witness :
    mapLookup [("a", ([] : BuilderMap))] "a" = some ([] : BuilderMap) := by
  obtain ⟨bm, hb, hl⟩ := newCatalogBuilderMap_first_occurrence_wins
    (NewTemplate []) exDupCatalogs "json" [("a", ([] : BuilderMap))] "a"
    { Name := "a", Destination := { WorkingDir := "/x" }, Builders := [] }
    rfl rfl
  have hbm : bm = [] := by
    have h0 : (Except.ok ([] : BuilderMap) : Except RenderError BuilderMap) = .ok bm := hb
    exact (Except.ok.inj h0).symm
  rw [hbm] at hl
  exact hl

/-- Claim C9: FetchCatalogConfig treats the path as local exactly when
URI parsing fails or the path is absolute — then it opens the file,
wrapping an open failure; in every other case it issues a GET via the
injected getter on the parsed URI, wrapping a transport failure, and
otherwise returns the response body as-is with no status-code
validation (for every status code). -/
theorem FetchCatalogConfig_contract (env : FetchEnv) (path : String) (g : HttpGetter) :
    ((∃ e, env.parseRequestURI path = .error e) ∨ env.isAbs path = true →
      FetchCatalogConfig env path g =
        (match env.openFile path with
         | .error e => .error (.openingCatalogConfigFile path e)
         | .ok contents => .ok contents)) ∧
    (∀ uri, env.parseRequestURI path = .ok uri → env.isAbs path = false →
      (∀ e, g.Get uri = .error e →
        FetchCatalogConfig env path g = .error (.fetchingRemoteCatalogConfigFile path e)) ∧
      (∀ resp, g.Get uri = .ok resp →
        FetchCatalogConfig env path g = .ok resp.Body)) := by
  constructor
  · intro h
    unfold FetchCatalogConfig
    cases hp : env.parseRequestURI path with
    | error e => rfl
    | ok uri =>
      have habs : env.isAbs path = true := by
        rcases h with ⟨e, he⟩ | habs
        · rw [hp] at he
          cases he
        · exact habs
      rw [habs]
      simp
  · intro uri hp habs
    constructor
    · intro e he
      unfold FetchCatalogConfig
      rw [hp, habs]
      simp [he]
    · intro resp hresp
      unfold FetchCatalogConfig
      rw [hp, habs]
      simp [hresp]

/-- Witness for C9: a path every environment rule sends to the local
file is read from the file; a relative-URI path is fetched remotely and
its body returned even under status code 500. -/
theorem FetchCatalogConfig_contract_witness :
    FetchCatalogConfig exEnvLocal "conf.yaml" exGetter = .ok "local-data" ∧
    FetchCatalogConfig exEnvRemote "host/conf.yaml" exGetter = .ok "remote-body" := by
  constructor
  · exact (FetchCatalogConfig_contract exEnvLocal "conf.yaml" exGetter).1
      (Or.inl ⟨"parse error", rfl⟩)
  · exact ((FetchCatalogConfig_contract exEnvRemote "host/conf.yaml" exGetter).2
      "host/conf.yaml" rfl rfl).2 { StatusCode := 500, Body := "remote-body" } rfl

end Composite
